import Mathlib

/-!
Verification of the credential-resolution and account-ID-discovery helpers
of `aws-sdk-go-base` (`auth_helpers.go`), shallowly embedded in Lean 4.

External AWS SDK calls (session construction, the EC2 metadata service,
`iam:GetUser`, `sts:GetCallerIdentity`, `iam:ListRoles`, the metadata
availability probe, and chain-credential evaluation) are modelled as
oracle fields of an environment record; the control flow, error
classification, and returned values are translated line by line from the
Go source.  Each function additionally records the trace of external
calls it performs, so that "no further call is attempted" properties are
statable.  Results are Go-style pairs of a value and an optional error,
mirroring `return "", err` / `return nil, err` in the source.
-/

/-- An AWS SDK error as seen through `err.(awserr.Error)`: `code = none`
models an error value that does not implement `awserr.Error` (the type
assertion fails), `code = some c` an `awserr.Error` whose `Code()` is `c`.
`msg` is the error text. -/
structure AwsErr where
  code : Option String
  msg : String
deriving DecidableEq, Repr

/-- The external calls the two functions can perform. -/
inductive ApiCall where
  | newSession
  | iamInfo
  | getUser
  | getCallerIdentity
  | listRoles (maxItems : Int)
  | metadataProbe
deriving DecidableEq, Repr

/-- Errors returned by `GetAccountId`, one constructor per
`return "", ...` site in the Go source. -/
inductive AccountIdError where
  | sessionError (cause : String)
  | ec2IamInfoError (cause : String)
  | arnParseError (arn : String)
  | getUserError (cause : AwsErr)
  | listRolesError (cause : AwsErr)
  | noRolesAvailable
deriving DecidableEq, Repr

/-- `ec2rolecreds.ProviderName` from the AWS SDK. -/
def ec2RoleProviderName : String := "EC2RoleProvider"

/-- Oracle results of the external calls made by `GetAccountId`:
`sessionResult` for `session.NewSession`, `iamInfoResult` for
`metadataClient.IAMInfo()` (returning the `InstanceProfileArn`),
`getUserResult` for `iamconn.GetUser` (returning `*outUser.User.Arn`),
`getCallerIdentityResult` for `stsconn.GetCallerIdentity` (returning
`*outCallerIdentity.Account`), and `listRolesResult` for
`iamconn.ListRoles` as a function of the requested `MaxItems`,
returning the list of role ARNs. -/
structure IdServices where
  sessionResult : Except String Unit
  iamInfoResult : Except String String
  getUserResult : Except AwsErr String
  getCallerIdentityResult : Except AwsErr String
  listRolesResult : Int → Except AwsErr (List String)

/-- `strings.Split(arn, ":")`: since the separator is the single
character `:`, Go's split is exactly the character-level split (empty
input gives `[""]`, adjacent separators give empty fields). -/
def arnFields (arn : String) : List String :=
  (arn.toList.splitOn ':').map List.asString

/-- `parseAccountIdFromArn`: split on `":"`; fewer than 5 fields is a
parse error, otherwise return the field at index 4. -/
def parseAccountIdFromArn (arn : String) : String × Option AccountIdError :=
  let parts := arnFields arn
  if parts.length < 5 then
    ("", some (AccountIdError.arnParseError arn))
  else
    (parts.getD 4 "", none)

/-- The metadata path of `GetAccountId` (lines 26-45): create a session,
query `IAMInfo`, and parse the account ID from the instance-profile ARN.
Every failure is returned immediately. -/
def metadataPath (env : IdServices) :
    (String × Option AccountIdError) × List ApiCall :=
  match env.sessionResult with
  | Except.error e => (("", some (AccountIdError.sessionError e)), [ApiCall.newSession])
  | Except.ok _ =>
    match env.iamInfoResult with
    | Except.error e =>
        (("", some (AccountIdError.ec2IamInfoError e)), [ApiCall.newSession, ApiCall.iamInfo])
    | Except.ok arn =>
        (parseAccountIdFromArn arn, [ApiCall.newSession, ApiCall.iamInfo])

/-- The final `iam:ListRoles` step of `GetAccountId` (lines 70-83):
request at most one role; a call failure or an empty role list is
terminal, otherwise parse the first role's ARN. -/
def listRolesStep (env : IdServices) :
    (String × Option AccountIdError) × List ApiCall :=
  match env.listRolesResult 1 with
  | Except.error e => (("", some (AccountIdError.listRolesError e)), [ApiCall.listRoles 1])
  | Except.ok roles =>
    if roles.length < 1 then
      (("", some AccountIdError.noRolesAvailable), [ApiCall.listRoles 1])
    else
      (parseAccountIdFromArn (roles.getD 0 ""), [ApiCall.listRoles 1])

/-- The `sts:GetCallerIdentity` step with its `ListRoles` fallback
(lines 62-83): on success return the account field directly; any failure
falls through to `listRolesStep`. -/
def stsFallback (env : IdServices) :
    (String × Option AccountIdError) × List ApiCall :=
  match env.getCallerIdentityResult with
  | Except.ok account => ((account, none), [ApiCall.getCallerIdentity])
  | Except.error _ =>
    let r := listRolesStep env
    (r.1, ApiCall.getCallerIdentity :: r.2)

/-- Line 57: fallback past a `GetUser` failure happens exactly when the
error is an `awserr.Error` whose code is `AccessDenied` or
`ValidationError` (Go: `!ok || (code != "AccessDenied" && code !=
"ValidationError")` is the terminal condition). -/
def getUserFallbackTriggers (e : AwsErr) : Bool :=
  e.code = some "AccessDenied" || e.code = some "ValidationError"

/-- `GetAccountId` (lines 24-84), with the oracle environment `env`
standing for the injected `iamconn`/`stsconn` clients and the metadata
service.  Returns the Go result pair and the trace of external calls. -/
def GetAccountId (env : IdServices) (authProviderName : String) :
    (String × Option AccountIdError) × List ApiCall :=
  if authProviderName = ec2RoleProviderName then
    metadataPath env
  else
    match env.getUserResult with
    | Except.ok arn => (parseAccountIdFromArn arn, [ApiCall.getUser])
    | Except.error e =>
      if getUserFallbackTriggers e then
        let r := stsFallback env
        (r.1, ApiCall.getUser :: r.2)
      else
        (("", some (AccountIdError.getUserError e)), [ApiCall.getUser])

/-- The `Config` struct fields used by `GetCredentials`. -/
structure Config where
  AccessKey : String
  SecretKey : String
  Token : String
  CredsFilename : String
  Profile : String
  RoleArn : String
  Region : String
  MaxRetries : Int
  S3ForcePathStyle : Bool
  SkipMetadataApiCheck : Bool
deriving DecidableEq, Repr

/-- The credential providers that can appear in the base chain built by
`GetCredentials` before role assumption. -/
inductive BaseProvider where
  | staticProvider (accessKeyID secretAccessKey sessionToken : String)
  | envProvider
  | sharedCredentialsProvider (filename profile : String)
  | ec2RoleProvider
deriving DecidableEq, Repr

/-- The STS client built for role assumption (lines 162-170): it carries
the chain credentials it was constructed from together with the region,
max-retry count and path-style flag taken from the configuration. -/
structure StsClient where
  chain : List BaseProvider
  region : String
  maxRetries : Int
  s3ForcePathStyle : Bool
deriving DecidableEq, Repr

/-- A provider in the final chain: either one of the base providers or
the assumed-role provider bound to a role ARN and an STS client. -/
inductive Provider where
  | base (p : BaseProvider)
  | assumeRole (roleArn : String) (client : StsClient)
deriving DecidableEq, Repr

/-- The credential value produced by `creds.Get()`; only the provider
name is consumed (for logging). -/
structure CredValue where
  providerName : String
deriving DecidableEq, Repr

/-- Oracle environment for `GetCredentials`: the result of
`metadataClient.Available()` and of `creds.Get()` on a chain built from
a given provider list. -/
structure CredEnv where
  metadataAvailable : Bool
  chainGet : List BaseProvider → Except AwsErr CredValue

/-- Errors returned by `GetCredentials`, one constructor per
`fmt.Errorf` site (lines 151 and 155); the surrounding
`multierror.Error` always carries exactly one of them. -/
inductive CredError where
  | noValidCredentialSources
  | errorLoadingCredentials (cause : AwsErr)
deriving DecidableEq, Repr

/-- The initial ordered provider list (lines 101-112): static value,
environment, shared credentials file. -/
def initialProviders (c : Config) : List BaseProvider :=
  [BaseProvider.staticProvider c.AccessKey c.SecretKey c.Token,
   BaseProvider.envProvider,
   BaseProvider.sharedCredentialsProvider c.CredsFilename c.Profile]

/-- The provider list after the optional metadata probe (lines 124-142),
together with the trace of probe calls: unless the probe is skipped, it
is performed, and the EC2 role provider is appended exactly when the
probe reports the metadata service available. -/
def baseProviders (env : CredEnv) (c : Config) :
    List BaseProvider × List ApiCall :=
  if c.SkipMetadataApiCheck then
    (initialProviders c, [])
  else if env.metadataAvailable then
    (initialProviders c ++ [BaseProvider.ec2RoleProvider], [ApiCall.metadataProbe])
  else
    (initialProviders c, [ApiCall.metadataProbe])

/-- `GetCredentials` (lines 97-178): build the base provider list; if a
role ARN is configured, force evaluation of the chain, classify a
failure into the dedicated no-sources error versus the generic wrapped
error, and on success replace the whole list by a single assumed-role
provider bound to a fresh STS client; finally return the chain. -/
def GetCredentials (env : CredEnv) (c : Config) :
    (Option (List Provider) × Option CredError) × List ApiCall :=
  let pt := baseProviders env c
  if c.RoleArn ≠ "" then
    match env.chainGet pt.1 with
    | Except.error e =>
      if e.code = some "NoCredentialProviders" then
        ((none, some CredError.noValidCredentialSources), pt.2)
      else
        ((none, some (CredError.errorLoadingCredentials e)), pt.2)
    | Except.ok _ =>
      let stsclient : StsClient :=
        ⟨pt.1, c.Region, c.MaxRetries, c.S3ForcePathStyle⟩
      ((some [Provider.assumeRole c.RoleArn stsclient], none), pt.2)
  else
    ((some (pt.1.map Provider.base), none), pt.2)

/-! ## Claim C1: ARN account-ID extraction -/

/-- C1: `parseAccountIdFromArn` splits the input on colons and returns
exactly the field at index 4 whenever there are at least 5 fields, with
no further validation of the field's content; with fewer than 5 fields
it returns a parse error and no account ID. -/
theorem parseAccountIdFromArn_spec (arn : String) :
    (5 ≤ (arnFields arn).length →
      parseAccountIdFromArn arn = ((arnFields arn).getD 4 "", none)) ∧
    ((arnFields arn).length < 5 →
      parseAccountIdFromArn arn = ("", some (AccountIdError.arnParseError arn))) := by
  constructor
  · intro h
    simp [parseAccountIdFromArn, Nat.not_lt.mpr h]
  · intro h
    simp [parseAccountIdFromArn, h]

/-- Witness for C1 at the ARNs
`arn:aws:iam::123456789012:instance-profile/foo` (6 fields) and
`foo:bar` (2 fields). -/
theorem parseAccountIdFromArn_spec_witness :
    (5 ≤ (arnFields "arn:aws:iam::123456789012:instance-profile/foo").length ∧
      parseAccountIdFromArn "arn:aws:iam::123456789012:instance-profile/foo" =
        ((arnFields "arn:aws:iam::123456789012:instance-profile/foo").getD 4 "", none) ∧
      (arnFields "arn:aws:iam::123456789012:instance-profile/foo").getD 4 "" =
        "123456789012") ∧
    ((arnFields "foo:bar").length < 5 ∧
      parseAccountIdFromArn "foo:bar" =
        ("", some (AccountIdError.arnParseError "foo:bar"))) :=
  ⟨⟨by decide,
    (parseAccountIdFromArn_spec "arn:aws:iam::123456789012:instance-profile/foo").1
      (by decide),
    by decide⟩,
   ⟨by decide, (parseAccountIdFromArn_spec "foo:bar").2 (by decide)⟩⟩

/-! ## Claim C7: the metadata-provider path -/

/-- C7: when the active provider name equals the instance-metadata
provider name, only the metadata path runs: session and IAM-info
failures are returned immediately, success parses the instance-profile
ARN, and the trace never contains `GetUser`, `GetCallerIdentity` or
`ListRoles`. -/
theorem GetAccountId_metadataPath_spec (env : IdServices) :
    GetAccountId env ec2RoleProviderName = metadataPath env ∧
    (∀ e, env.sessionResult = Except.error e →
      (GetAccountId env ec2RoleProviderName).1 =
        ("", some (AccountIdError.sessionError e))) ∧
    (∀ e, env.sessionResult = Except.ok () → env.iamInfoResult = Except.error e →
      (GetAccountId env ec2RoleProviderName).1 =
        ("", some (AccountIdError.ec2IamInfoError e))) ∧
    (∀ arn, env.sessionResult = Except.ok () → env.iamInfoResult = Except.ok arn →
      (GetAccountId env ec2RoleProviderName).1 = parseAccountIdFromArn arn) ∧
    (∀ call ∈ (GetAccountId env ec2RoleProviderName).2,
      call = ApiCall.newSession ∨ call = ApiCall.iamInfo) := by
  have h0 : GetAccountId env ec2RoleProviderName = metadataPath env := by
    simp [GetAccountId]
  refine ⟨h0, ?_, ?_, ?_, ?_⟩
  · intro e he
    simp [h0, metadataPath, he]
  · intro e hs hi
    simp [h0, metadataPath, hs, hi]
  · intro arn hs hi
    simp [h0, metadataPath, hs, hi]
  · intro call hc
    rw [h0] at hc
    unfold metadataPath at hc
    rcases hs : env.sessionResult with e | u <;> rw [hs] at hc
    · simp at hc
      simp [hc]
    · rcases hi : env.iamInfoResult with e | arn <;> rw [hi] at hc <;>
        simp at hc <;> tauto

/-- Concrete environment for the C7 witness: metadata session and
IAM-info succeed with a well-formed instance-profile ARN. -/
def envMetaOk : IdServices :=
  ⟨Except.ok (), Except.ok "arn:aws:iam::123456789012:instance-profile/foo",
   Except.error ⟨none, "unused"⟩, Except.error ⟨none, "unused"⟩,
   fun _ => Except.ok []⟩

/-- Witness for C7: with the metadata provider active and the metadata
service returning `arn:aws:iam::123456789012:instance-profile/foo`, the
result is that ARN's parsed account ID. -/
theorem GetAccountId_metadataPath_spec_witness :
    envMetaOk.sessionResult = Except.ok () ∧
    envMetaOk.iamInfoResult =
      Except.ok "arn:aws:iam::123456789012:instance-profile/foo" ∧
    (GetAccountId envMetaOk ec2RoleProviderName).1 =
      parseAccountIdFromArn "arn:aws:iam::123456789012:instance-profile/foo" :=
  ⟨rfl, rfl,
   (GetAccountId_metadataPath_spec envMetaOk).2.2.2.1
     "arn:aws:iam::123456789012:instance-profile/foo" rfl rfl⟩

/-! ## Claim C2: GetUser failure classification -/

/-- C2: off the metadata path, a `GetUser` failure falls through to the
`GetCallerIdentity` step exactly when the error is an AWS error coded
`AccessDenied` or `ValidationError`; any other failure (including errors
with no AWS error code) is returned immediately with no further calls. -/
theorem GetAccountId_getUser_classification (env : IdServices)
    (name : String) (e : AwsErr)
    (hn : name ≠ ec2RoleProviderName)
    (hu : env.getUserResult = Except.error e) :
    (getUserFallbackTriggers e = true ↔
      (e.code = some "AccessDenied" ∨ e.code = some "ValidationError")) ∧
    (getUserFallbackTriggers e = true →
      GetAccountId env name =
        ((stsFallback env).1, ApiCall.getUser :: (stsFallback env).2)) ∧
    (getUserFallbackTriggers e = false →
      GetAccountId env name =
        (("", some (AccountIdError.getUserError e)), [ApiCall.getUser])) := by
  refine ⟨?_, ?_, ?_⟩
  · simp [getUserFallbackTriggers]
  · intro ht
    simp [GetAccountId, hn, hu, ht]
  · intro ht
    simp [GetAccountId, hn, hu, ht]

/-- Concrete environment for the C2 witness: `GetUser` fails with a
plain error carrying no AWS error code. -/
def envNoCode : IdServices :=
  ⟨Except.ok (), Except.error "unused",
   Except.error ⟨none, "connection reset"⟩, Except.ok "222233334444",
   fun _ => Except.ok []⟩

/-- Witness for C2: a `GetUser` failure with no AWS error code is
terminal, returning the wrapped error after the single `GetUser` call. -/
theorem GetAccountId_getUser_classification_witness :
    "StaticProvider" ≠ ec2RoleProviderName ∧
    envNoCode.getUserResult = Except.error ⟨none, "connection reset"⟩ ∧
    (getUserFallbackTriggers ⟨none, "connection reset"⟩ = false →
      GetAccountId envNoCode "StaticProvider" =
        (("", some (AccountIdError.getUserError ⟨none, "connection reset"⟩)),
         [ApiCall.getUser])) ∧
    GetAccountId envNoCode "StaticProvider" =
      (("", some (AccountIdError.getUserError ⟨none, "connection reset"⟩)),
       [ApiCall.getUser]) :=
  ⟨by decide, rfl,
   (GetAccountId_getUser_classification envNoCode "StaticProvider"
      ⟨none, "connection reset"⟩ (by decide) rfl).2.2,
   (GetAccountId_getUser_classification envNoCode "StaticProvider"
      ⟨none, "connection reset"⟩ (by decide) rfl).2.2 rfl⟩

/-! ## Claim C5: the GetCallerIdentity step -/

/-- C5: once the `GetCallerIdentity` step is reached, success returns
that call's account field directly without any `ListRoles` call, and any
failure whatsoever falls through to the `ListRoles` step rather than
returning an error. -/
theorem GetAccountId_getCallerIdentity_spec (env : IdServices)
    (name : String) (e : AwsErr)
    (hn : name ≠ ec2RoleProviderName)
    (hu : env.getUserResult = Except.error e)
    (ht : getUserFallbackTriggers e = true) :
    (∀ a, env.getCallerIdentityResult = Except.ok a →
      GetAccountId env name =
        ((a, none), [ApiCall.getUser, ApiCall.getCallerIdentity])) ∧
    (∀ a, env.getCallerIdentityResult = Except.ok a →
      ∀ m, ApiCall.listRoles m ∉ (GetAccountId env name).2) ∧
    (∀ e2, env.getCallerIdentityResult = Except.error e2 →
      GetAccountId env name =
        ((listRolesStep env).1,
         ApiCall.getUser :: ApiCall.getCallerIdentity :: (listRolesStep env).2)) := by
  refine ⟨?_, ?_, ?_⟩
  · intro a ha
    simp [GetAccountId, hn, hu, ht, stsFallback, ha]
  · intro a ha m
    simp [GetAccountId, hn, hu, ht, stsFallback, ha]
  · intro e2 he2
    simp [GetAccountId, hn, hu, ht, stsFallback, he2]

/-- Concrete environment for the C5 witness: `GetUser` fails with
`AccessDenied` and `GetCallerIdentity` returns account `222233334444`. -/
def envCallerIdOk : IdServices :=
  ⟨Except.ok (), Except.error "unused",
   Except.error ⟨some "AccessDenied", "denied"⟩, Except.ok "222233334444",
   fun _ => Except.ok []⟩

/-- Witness for C5: after an `AccessDenied` `GetUser` failure, a
successful `GetCallerIdentity` returns `222233334444` and `ListRoles` is
never called. -/
theorem GetAccountId_getCallerIdentity_spec_witness :
    "StaticProvider" ≠ ec2RoleProviderName ∧
    envCallerIdOk.getUserResult =
      Except.error ⟨some "AccessDenied", "denied"⟩ ∧
    getUserFallbackTriggers ⟨some "AccessDenied", "denied"⟩ = true ∧
    envCallerIdOk.getCallerIdentityResult = Except.ok "222233334444" ∧
    GetAccountId envCallerIdOk "StaticProvider" =
      (("222233334444", none), [ApiCall.getUser, ApiCall.getCallerIdentity]) :=
  ⟨by decide, rfl, by decide, rfl,
   (GetAccountId_getCallerIdentity_spec envCallerIdOk "StaticProvider"
      ⟨some "AccessDenied", "denied"⟩ (by decide) rfl (by decide)).1
     "222233334444" rfl⟩

/-! ## Claim C6: the ListRoles step -/

/-- C6: the final `ListRoles` step only ever requests at most one role
(`MaxItems = 1`); a call failure or an empty role list is a terminal
error with no further fallback, and success with at least one role
parses the first role's ARN. -/
theorem GetAccountId_listRoles_spec (env : IdServices)
    (name : String) (e e2 : AwsErr)
    (hn : name ≠ ec2RoleProviderName)
    (hu : env.getUserResult = Except.error e)
    (ht : getUserFallbackTriggers e = true)
    (hc : env.getCallerIdentityResult = Except.error e2) :
    (∀ m, ApiCall.listRoles m ∈ (GetAccountId env name).2 → m = 1) ∧
    (∀ e3, env.listRolesResult 1 = Except.error e3 →
      (GetAccountId env name).1 =
        ("", some (AccountIdError.listRolesError e3))) ∧
    (env.listRolesResult 1 = Except.ok [] →
      (GetAccountId env name).1 = ("", some AccountIdError.noRolesAvailable)) ∧
    (∀ r rs, env.listRolesResult 1 = Except.ok (r :: rs) →
      (GetAccountId env name).1 = parseAccountIdFromArn r) := by
  have h0 : GetAccountId env name =
      ((listRolesStep env).1,
       ApiCall.getUser :: ApiCall.getCallerIdentity :: (listRolesStep env).2) := by
    simp [GetAccountId, hn, hu, ht, stsFallback, hc]
  refine ⟨?_, ?_, ?_, ?_⟩
  · intro m hm
    rw [h0] at hm
    unfold listRolesStep at hm
    rcases hl : env.listRolesResult 1 with e3 | roles <;> rw [hl] at hm
    · simp at hm
      omega
    · rcases roles with _ | ⟨r, rs⟩ <;> simp at hm <;> omega
  · intro e3 hl
    simp [h0, listRolesStep, hl]
  · intro hl
    simp [h0, listRolesStep, hl]
  · intro r rs hl
    simp [h0, listRolesStep, hl]

/-- Concrete environment for the C6 witness: `GetUser` fails with
`AccessDenied`, `GetCallerIdentity` fails, and `ListRoles` succeeds with
an empty role list. -/
def envNoRoles : IdServices :=
  ⟨Except.ok (), Except.error "unused",
   Except.error ⟨some "AccessDenied", "denied"⟩,
   Except.error ⟨some "InvalidAction", "not supported"⟩,
   fun _ => Except.ok []⟩

/-- Witness for C6: with both earlier steps failed and `ListRoles`
returning zero roles, the result is the terminal no-roles error. -/
theorem GetAccountId_listRoles_spec_witness :
    "StaticProvider" ≠ ec2RoleProviderName ∧
    envNoRoles.getUserResult = Except.error ⟨some "AccessDenied", "denied"⟩ ∧
    getUserFallbackTriggers ⟨some "AccessDenied", "denied"⟩ = true ∧
    envNoRoles.getCallerIdentityResult =
      Except.error ⟨some "InvalidAction", "not supported"⟩ ∧
    envNoRoles.listRolesResult 1 = Except.ok [] ∧
    (GetAccountId envNoRoles "StaticProvider").1 =
      ("", some AccountIdError.noRolesAvailable) :=
  ⟨by decide, rfl, by decide, rfl, rfl,
   (GetAccountId_listRoles_spec envNoRoles "StaticProvider"
      ⟨some "AccessDenied", "denied"⟩ ⟨some "InvalidAction", "not supported"⟩
      (by decide) rfl (by decide) rfl).2.2.1 rfl⟩

/-! ## Claim C3: role-ARN failure classification -/

/-- C3: with a role ARN configured, a failed forced evaluation of the
base chain yields the dedicated no-valid-credential-sources error when
the failure code is `NoCredentialProviders`, and the generic
wrapped-cause error otherwise; the two errors are distinct, and in both
cases no credential chain is returned. -/
theorem GetCredentials_roleArn_failure_spec (env : CredEnv) (c : Config)
    (hr : c.RoleArn ≠ "") :
    (∀ e, env.chainGet (baseProviders env c).1 = Except.error e →
      e.code = some "NoCredentialProviders" →
      (GetCredentials env c).1 = (none, some CredError.noValidCredentialSources)) ∧
    (∀ e, env.chainGet (baseProviders env c).1 = Except.error e →
      e.code ≠ some "NoCredentialProviders" →
      (GetCredentials env c).1 = (none, some (CredError.errorLoadingCredentials e))) ∧
    (∀ e, CredError.noValidCredentialSources ≠ CredError.errorLoadingCredentials e) := by
  refine ⟨?_, ?_, ?_⟩
  · intro e hg hcode
    simp [GetCredentials, hr, hg, hcode]
  · intro e hg hcode
    simp [GetCredentials, hr, hg, hcode]
  · intro e
    simp

/-- Concrete configuration with a role ARN set, for the GetCredentials
witnesses. -/
def cWithRole : Config :=
  ⟨"AKIA", "secret", "token", "/tmp/creds", "default",
   "arn:aws:iam::123456789012:role/deploy", "us-east-1", 5, true, true⟩

/-- Concrete environment for the C3 witness: forcing the chain fails
with the `NoCredentialProviders` code. -/
def envNoCreds : CredEnv :=
  ⟨false, fun _ => Except.error ⟨some "NoCredentialProviders", "no providers"⟩⟩

/-- Witness for C3: with a role ARN and a `NoCredentialProviders`
failure, the dedicated error is returned and the chain is `none`. -/
theorem GetCredentials_roleArn_failure_spec_witness :
    cWithRole.RoleArn ≠ "" ∧
    envNoCreds.chainGet (baseProviders envNoCreds cWithRole).1 =
      Except.error ⟨some "NoCredentialProviders", "no providers"⟩ ∧
    (GetCredentials envNoCreds cWithRole).1 =
      (none, some CredError.noValidCredentialSources) :=
  ⟨by decide, rfl,
   (GetCredentials_roleArn_failure_spec envNoCreds cWithRole (by decide)).1
     ⟨some "NoCredentialProviders", "no providers"⟩ rfl rfl⟩

/-! ## Claim C4: role assumption on successful chain evaluation -/

/-- C4: with a role ARN configured and the base chain evaluating
successfully, the returned chain is exactly one assumed-role provider
bound to the configured role ARN and a fresh STS client built from the
resolved chain credentials plus the configuration's region, max-retry
count and path-style flag. -/
theorem GetCredentials_assumeRole_spec (env : CredEnv) (c : Config) (cp : CredValue)
    (hr : c.RoleArn ≠ "")
    (hg : env.chainGet (baseProviders env c).1 = Except.ok cp) :
    (GetCredentials env c).1 =
      (some [Provider.assumeRole c.RoleArn
        ⟨(baseProviders env c).1, c.Region, c.MaxRetries, c.S3ForcePathStyle⟩],
       none) := by
  simp [GetCredentials, hr, hg]

/-- Concrete environment for the C4 witness: forcing the chain succeeds
with a static-provider credential value. -/
def envChainOk : CredEnv :=
  ⟨false, fun _ => Except.ok ⟨"StaticProvider"⟩⟩

/-- Witness for C4: with a role ARN and a successful chain evaluation,
the result is the single assumed-role source over the base chain. -/
theorem GetCredentials_assumeRole_spec_witness :
    cWithRole.RoleArn ≠ "" ∧
    envChainOk.chainGet (baseProviders envChainOk cWithRole).1 =
      Except.ok ⟨"StaticProvider"⟩ ∧
    (GetCredentials envChainOk cWithRole).1 =
      (some [Provider.assumeRole cWithRole.RoleArn
        ⟨(baseProviders envChainOk cWithRole).1, cWithRole.Region,
         cWithRole.MaxRetries, cWithRole.S3ForcePathStyle⟩],
       none) :=
  ⟨by decide, rfl,
   GetCredentials_assumeRole_spec envChainOk cWithRole ⟨"StaticProvider"⟩
     (by decide) rfl⟩

/-! ## Claim C8: skip-metadata chain contents -/

/-- C8: with the skip-metadata flag enabled and no role ARN,
`GetCredentials` succeeds with exactly the static, environment, and
shared-file sources in that order, and performs no metadata probe. -/
theorem GetCredentials_skipMetadata_spec (env : CredEnv) (c : Config)
    (hs : c.SkipMetadataApiCheck = true) (hr : c.RoleArn = "") :
    GetCredentials env c =
      ((some
        [Provider.base (BaseProvider.staticProvider c.AccessKey c.SecretKey c.Token),
         Provider.base BaseProvider.envProvider,
         Provider.base (BaseProvider.sharedCredentialsProvider c.CredsFilename c.Profile)],
        none), []) ∧
    ApiCall.metadataProbe ∉ (GetCredentials env c).2 := by
  have h0 : GetCredentials env c =
      ((some
        [Provider.base (BaseProvider.staticProvider c.AccessKey c.SecretKey c.Token),
         Provider.base BaseProvider.envProvider,
         Provider.base (BaseProvider.sharedCredentialsProvider c.CredsFilename c.Profile)],
        none), []) := by
    simp [GetCredentials, baseProviders, initialProviders, hs, hr]
  exact ⟨h0, by simp [h0]⟩

/-- Concrete configuration for the C8 witness: skip-metadata enabled and
no role ARN. -/
def cSkipNoRole : Config :=
  ⟨"AKIA", "secret", "token", "/tmp/creds", "default", "", "us-east-1", 5, false, true⟩

/-- Arbitrary environment for the C8 witness (its fields are unused on
this path). -/
def envIdle : CredEnv :=
  ⟨true, fun _ => Except.error ⟨none, "unused"⟩⟩

/-- Witness for C8: the skip-metadata, no-role configuration yields the
three base sources in order with an empty call trace. -/
theorem GetCredentials_skipMetadata_spec_witness :
    cSkipNoRole.SkipMetadataApiCheck = true ∧ cSkipNoRole.RoleArn = "" ∧
    GetCredentials envIdle cSkipNoRole =
      ((some
        [Provider.base (BaseProvider.staticProvider "AKIA" "secret" "token"),
         Provider.base BaseProvider.envProvider,
         Provider.base (BaseProvider.sharedCredentialsProvider "/tmp/creds" "default")],
        none), []) :=
  ⟨rfl, rfl,
   (GetCredentials_skipMetadata_spec envIdle cSkipNoRole rfl rfl).1⟩

/-! ## Claim C9: the metadata availability probe -/

/-- Configuration with skip-metadata disabled and a role ARN set, used
to refute the claim that probe unavailability always leaves
`GetCredentials` successful. -/
def cProbeRole : Config :=
  ⟨"", "", "", "", "", "arn:aws:iam::123456789012:role/deploy",
   "us-east-1", 5, false, false⟩

/-- Environment where the metadata probe reports unavailable and forcing
the chain finds no usable credentials. -/
def envProbeDown : CredEnv :=
  ⟨false, fun _ => Except.error ⟨some "NoCredentialProviders", "no providers"⟩⟩

/-- Counterexample to C9 as stated: with skip-metadata disabled and the
probe reporting unavailable, `GetCredentials` can still return an error
(here the role-assumption path fails to resolve base credentials), so it
does not always return successfully when the probe is unavailable. -/
theorem GetCredentials_probe_claim_counterexample :
    cProbeRole.SkipMetadataApiCheck = false ∧
    envProbeDown.metadataAvailable = false ∧
    (GetCredentials envProbeDown cProbeRole).1.2 =
      some CredError.noValidCredentialSources ∧
    (GetCredentials envProbeDown cProbeRole).1.2 ≠ none := by
  refine ⟨rfl, rfl, rfl, ?_⟩
  intro h
  simp [GetCredentials, envProbeDown, cProbeRole, baseProviders] at h

/-- C9 (amended): with skip-metadata disabled, the probe runs and the
instance-metadata source is appended if and only if it reports
available; when it reports unavailable no source is added, the probe
outcome never appears in any returned error, and if additionally no role
ARN is configured, `GetCredentials` returns successfully. -/
theorem GetCredentials_probe_spec (env : CredEnv) (c : Config)
    (hs : c.SkipMetadataApiCheck = false) :
    (env.metadataAvailable = true →
      (baseProviders env c).1 = initialProviders c ++ [BaseProvider.ec2RoleProvider]) ∧
    (env.metadataAvailable = false →
      (baseProviders env c).1 = initialProviders c) ∧
    (BaseProvider.ec2RoleProvider ∈ (baseProviders env c).1 ↔
      env.metadataAvailable = true) ∧
    (c.RoleArn = "" →
      (Provider.base BaseProvider.ec2RoleProvider ∈
          ((GetCredentials env c).1.1.getD []) ↔
        env.metadataAvailable = true)) ∧
    (env.metadataAvailable = false → c.RoleArn = "" →
      (GetCredentials env c).1 =
        (some ((initialProviders c).map Provider.base), none)) := by
  refine ⟨?_, ?_, ?_, ?_, ?_⟩
  · intro hm
    simp [baseProviders, hs, hm]
  · intro hm
    simp [baseProviders, hs, hm]
  · rcases hm : env.metadataAvailable <;>
      simp [baseProviders, initialProviders, hs, hm]
  · intro hr
    have h0 : (GetCredentials env c).1.1 = some ((baseProviders env c).1.map Provider.base) := by
      simp [GetCredentials, hr]
    rcases hm : env.metadataAvailable <;>
      simp [h0, baseProviders, initialProviders, hs, hm]
  · intro hm hr
    simp [GetCredentials, baseProviders, hs, hm, hr]

/-- Environment for the amended-C9 witness: probe reports unavailable. -/
def envProbeDownIdle : CredEnv :=
  ⟨false, fun _ => Except.error ⟨none, "unused"⟩⟩

/-- Configuration for the amended-C9 witness: skip-metadata disabled, no
role ARN. -/
def cProbeNoRole : Config :=
  ⟨"AKIA", "secret", "token", "/tmp/creds", "default", "", "us-east-1", 5, false, false⟩

/-- Witness for amended C9: probe unavailable and no role ARN gives the
plain three-source chain with no error. -/
theorem GetCredentials_probe_spec_witness :
    cProbeNoRole.SkipMetadataApiCheck = false ∧
    envProbeDownIdle.metadataAvailable = false ∧
    cProbeNoRole.RoleArn = "" ∧
    (GetCredentials envProbeDownIdle cProbeNoRole).1 =
      (some ((initialProviders cProbeNoRole).map Provider.base), none) :=
  ⟨rfl, rfl, rfl,
   (GetCredentials_probe_spec envProbeDownIdle cProbeNoRole rfl).2.2.2.2 rfl rfl⟩

/-! ## Claim C10: errors never accompany partial results -/

/-- Every error return of `parseAccountIdFromArn` carries the empty
account ID. -/
lemma parseAccountIdFromArn_err (arn : String) :
    (parseAccountIdFromArn arn).2 ≠ none → (parseAccountIdFromArn arn).1 = "" := by
  by_cases h : (arnFields arn).length < 5 <;> simp [parseAccountIdFromArn, h]

/-- Every error return of the metadata path carries the empty account ID. -/
lemma metadataPath_err (env : IdServices) :
    (metadataPath env).1.2 ≠ none → (metadataPath env).1.1 = "" := by
  unfold metadataPath
  rcases env.sessionResult with e | u
  · simp
  · rcases env.iamInfoResult with e | arn
    · simp
    · exact parseAccountIdFromArn_err arn

/-- Every error return of the `ListRoles` step carries the empty account
ID. -/
lemma listRolesStep_err (env : IdServices) :
    (listRolesStep env).1.2 ≠ none → (listRolesStep env).1.1 = "" := by
  unfold listRolesStep
  rcases env.listRolesResult 1 with e | roles
  · simp
  · rcases roles with _ | ⟨r, rs⟩
    · simp
    · simpa using parseAccountIdFromArn_err r

/-- Every error return of the `GetCallerIdentity`-and-later steps
carries the empty account ID. -/
lemma stsFallback_err (env : IdServices) :
    (stsFallback env).1.2 ≠ none → (stsFallback env).1.1 = "" := by
  unfold stsFallback
  rcases env.getCallerIdentityResult with e | a
  · exact listRolesStep_err env
  · simp

/-- Every error return of `GetAccountId` carries the empty account ID. -/
lemma GetAccountId_err (env : IdServices) (name : String) :
    (GetAccountId env name).1.2 ≠ none → (GetAccountId env name).1.1 = "" := by
  unfold GetAccountId
  by_cases hn : name = ec2RoleProviderName
  · simp only [hn, if_pos rfl]
    exact metadataPath_err env
  · simp only [if_neg hn]
    rcases env.getUserResult with e | arn
    · by_cases ht : getUserFallbackTriggers e = true
      · simp only [ht, if_pos rfl]
        exact stsFallback_err env
      · simp [ht]
    · exact parseAccountIdFromArn_err arn

/-- Every error return of `GetCredentials` carries a `nil` chain. -/
lemma GetCredentials_err (env : CredEnv) (c : Config) :
    (GetCredentials env c).1.2 ≠ none → (GetCredentials env c).1.1 = none := by
  unfold GetCredentials
  by_cases hr : c.RoleArn = ""
  · simp [hr]
  · simp only [ne_eq, hr, not_false_eq_true, if_pos]
    rcases hg : env.chainGet (baseProviders env c).1 with e | cp <;> simp [hg]
    by_cases hcode : e.code = some "NoCredentialProviders" <;> simp [hcode]

/-- C10: neither public operation returns a partial result alongside an
error: a non-`nil` error from `GetAccountId` comes with the empty
account-ID string, and a non-`nil` error from `GetCredentials` comes
with a `nil` credential chain. -/
theorem no_partial_result_on_error (envA : IdServices) (name : String)
    (envC : CredEnv) (c : Config) :
    ((GetAccountId envA name).1.2 ≠ none → (GetAccountId envA name).1.1 = "") ∧
    ((GetCredentials envC c).1.2 ≠ none → (GetCredentials envC c).1.1 = none) :=
  ⟨GetAccountId_err envA name, GetCredentials_err envC c⟩

/-- Environment for the C10 witness on the account-ID side: `GetUser`
fails with a plain error, so `GetAccountId` errors. -/
def envErrPlain : IdServices :=
  ⟨Except.ok (), Except.error "unused", Except.error ⟨none, "boom"⟩,
   Except.ok "unused", fun _ => Except.ok []⟩

/-- Environment for the C10 witness on the credentials side: forcing the
chain fails. -/
def envChainErr : CredEnv :=
  ⟨false, fun _ => Except.error ⟨none, "boom"⟩⟩

/-- Configuration for the C10 witness: a role ARN is set so the failing
chain evaluation is reached. -/
def cRoleErr : Config :=
  ⟨"", "", "", "", "", "arn:aws:iam::123456789012:role/deploy",
   "us-east-1", 5, false, false⟩

/-- Witness for C10: concrete erroring runs of both operations return
the empty string and a `nil` chain respectively. -/
theorem no_partial_result_on_error_witness :
    ((GetAccountId envErrPlain "StaticProvider").1.2 ≠ none ∧
      (GetAccountId envErrPlain "StaticProvider").1.1 = "") ∧
    ((GetCredentials envChainErr cRoleErr).1.2 ≠ none ∧
      (GetCredentials envChainErr cRoleErr).1.1 = none) :=
  ⟨⟨by decide,
    (no_partial_result_on_error envErrPlain "StaticProvider" envChainErr cRoleErr).1
      (by decide)⟩,
   ⟨by decide,
    (no_partial_result_on_error envErrPlain "StaticProvider" envChainErr cRoleErr).2
      (by decide)⟩⟩
